import Mathlib

/-!
Verification of the `aura-id-network/aura-id-api` persistent data engine
(`src/database.py`, with `src/config.py` and `src/api_server.py` as callers).

The SQLite store is shallowly embedded as explicit state: each table is a list
of row structures, and each `with get_db_cursor() as cursor:` block of the
source — one connection, committed on exit — is one atomic state transition.
Autoincrement rowid counters are carried in the state (SQLite `AUTOINCREMENT`
never reuses ids).  Wall-clock timestamps (`datetime.utcnow()`,
`CURRENT_TIMESTAMP`) are passed in as explicit `Nat` parameters.
-/

/-- Row of the `users` table (schema from `migrate_to_v1_0_0`). -/
structure UserRow where
  id : Nat
  telegram_id : Int
  username : Option String
  first_name : Option String
  is_admin : Bool
  created_at : Nat
deriving DecidableEq, Repr

/-- Row of the `cards` table (base schema from `migrate_to_v1_0_0`,
`access_key` added by `migrate_to_v1_2_0`, `star_price` by `migrate_to_v1_5_0`). -/
structure CardRow where
  id : Nat
  card_number : Int
  name : String
  owner_id : Int
  registration_date : String
  expires : String
  engraving_color : String
  has_background : Bool
  collection_id : Option Nat
  created_at : Nat
  access_key : Option String
  star_price : Int
deriving DecidableEq, Repr

/-- Row of the `collections` table (fields used by the operations under study). -/
structure CollectionRow where
  id : Nat
  name : String
  description : String
  author_id : Int
  star_price : Int
  is_published : Bool
  link_id : Option String
  created_at : Nat
deriving DecidableEq, Repr

/-- Row of the `trade_links` table (schema from `migrate_to_v1_0_0`). -/
structure TradeLinkRow where
  id : Nat
  link_id : String
  card_id : Nat
  seller_id : Int
  price : Int
  is_gift : Bool
  created_at : Nat
  is_active : Bool
deriving DecidableEq, Repr

/-- Row of the `airdrops` table (schema from `migrate_to_v1_6_0`). -/
structure AirdropRow where
  id : Nat
  name : String
  description : String
  creator_id : Int
  message_id : Option Int
  chat_id : Option Int
  is_active : Bool
  created_at : Nat
deriving DecidableEq, Repr

/-- Row of the `airdrop_cards` table (schema from `migrate_to_v1_6_0`).
Note that the schema declares no UNIQUE constraint on `(airdrop_id, card_id)`;
the only key is the autoincrement `id`. -/
structure AirdropCardRow where
  id : Nat
  airdrop_id : Nat
  card_id : Nat
  is_reserved : Bool
  reserved_by : Option Int
  reserved_at : Option Nat
deriving DecidableEq, Repr

/-- The whole store: one list per table plus the autoincrement counters. -/
structure DB where
  users : List UserRow
  cards : List CardRow
  collections : List CollectionRow
  trade_links : List TradeLinkRow
  airdrops : List AirdropRow
  airdrop_cards : List AirdropCardRow
  next_user_id : Nat
  next_card_id : Nat
  next_airdrop_card_id : Nat
deriving DecidableEq, Repr

/-- A freshly initialised store: empty tables, rowids starting at 1. -/
def emptyDB : DB :=
  { users := [], cards := [], collections := [], trade_links := [], airdrops := []
    airdrop_cards := [], next_user_id := 1, next_card_id := 1, next_airdrop_card_id := 1 }

/-- `User.save`: `INSERT OR REPLACE INTO users (telegram_id, username, first_name,
is_admin, created_at) VALUES (?, ?, ?, ?, COALESCE((SELECT created_at FROM users
WHERE telegram_id = ?), ?))`.  The `telegram_id UNIQUE` constraint makes
`OR REPLACE` delete any conflicting row and insert a fresh one; the fresh row's
`id` is not supplied, so SQLite assigns a new `AUTOINCREMENT` value.  `now` is
the `datetime.utcnow()` captured when the `User` object was constructed. -/
def User.save (db : DB) (telegramId : Int) (username firstName : Option String)
    (isAdmin : Bool) (now : Nat) : DB :=
  let created :=
    ((db.users.find? (fun u => u.telegram_id == telegramId)).map
      (fun u => u.created_at)).getD now
  { db with
    users := db.users.filter (fun u => !(u.telegram_id == telegramId)) ++
      [{ id := db.next_user_id, telegram_id := telegramId, username := username
         first_name := firstName, is_admin := isAdmin, created_at := created }]
    next_user_id := db.next_user_id + 1 }

/-- `Card.save`, insert branch (`self.id is None`): a plain `INSERT INTO cards`
of every field, including the caller-supplied `access_key`.  Neither the schema
(no UNIQUE constraint on `cards.access_key`) nor the code checks the key for
uniqueness, and no retry loop exists anywhere in the repository. -/
def Card.save_insert (db : DB) (cardNumber : Int) (name : String) (ownerId : Int)
    (registrationDate expires engravingColor : String) (hasBackground : Bool)
    (collectionId : Option Nat) (createdAt : Nat) (accessKey : Option String)
    (starPrice : Int) : DB :=
  { db with
    cards := db.cards ++
      [{ id := db.next_card_id, card_number := cardNumber, name := name
         owner_id := ownerId, registration_date := registrationDate
         expires := expires, engraving_color := engravingColor
         has_background := hasBackground, collection_id := collectionId
         created_at := createdAt, access_key := accessKey, star_price := starPrice }]
    next_card_id := db.next_card_id + 1 }

/-- `Card.save`, update branch: `UPDATE cards SET name = ?, owner_id = ?,
registration_date = ?, expires = ?, engraving_color = ?, has_background = ?,
collection_id = ?, access_key = ?, star_price = ? WHERE id = ?`
(`card_number` and `created_at` are not written). -/
def Card.save_update (db : DB) (c : CardRow) : DB :=
  { db with
    cards := db.cards.map (fun x =>
      if x.id == c.id then
        { x with name := c.name, owner_id := c.owner_id
                 registration_date := c.registration_date, expires := c.expires
                 engraving_color := c.engraving_color
                 has_background := c.has_background
                 collection_id := c.collection_id, access_key := c.access_key
                 star_price := c.star_price }
      else x) }

/-- `Card.get_by_id`: `SELECT * FROM cards WHERE id = ?`, first row or `None`. -/
def Card.get_by_id (db : DB) (cardId : Nat) : Option CardRow :=
  db.cards.find? (fun c => c.id == cardId)

/-- `Airdrop.add_card`: `INSERT OR IGNORE INTO airdrop_cards (airdrop_id, card_id)
VALUES (?, ?)`.  Since `airdrop_cards` (see `migrate_to_v1_6_0`) has no UNIQUE
constraint on `(airdrop_id, card_id)` and the autoincrement `id` never
conflicts, the `OR IGNORE` clause can never fire: every call inserts a row. -/
def Airdrop.add_card (db : DB) (airdropId cardId : Nat) : DB :=
  { db with
    airdrop_cards := db.airdrop_cards ++
      [{ id := db.next_airdrop_card_id, airdrop_id := airdropId, card_id := cardId
         is_reserved := false, reserved_by := none, reserved_at := none }]
    next_airdrop_card_id := db.next_airdrop_card_id + 1 }

/-- `AirdropCard.save`, update branch: `UPDATE airdrop_cards SET is_reserved = ?,
reserved_by = ?, reserved_at = ? WHERE id = ?` — an unconditional write keyed
only on `id`, with no `is_reserved = 0` guard. -/
def AirdropCard.save_update (db : DB) (r : AirdropCardRow) : DB :=
  { db with
    airdrop_cards := db.airdrop_cards.map (fun x =>
      if x.id == r.id then
        { x with is_reserved := r.is_reserved, reserved_by := r.reserved_by
                 reserved_at := r.reserved_at }
      else x) }

/-- `AirdropCard.get_random_available_card`: `SELECT ac.* FROM airdrop_cards ac
WHERE ac.airdrop_id = ? AND ac.is_reserved = 0 ORDER BY RANDOM() LIMIT 1`.
The random choice is modelled by the oracle `pick`: the result is the
`pick % length`-th currently-unreserved row, or `None` when there is none. -/
def AirdropCard.get_random_available_card (pick : Nat) (db : DB)
    (airdropId : Nat) : Option AirdropCardRow :=
  let avail := db.airdrop_cards.filter
    (fun r => r.airdrop_id == airdropId && !r.is_reserved)
  avail.get? (pick % avail.length)

/-- `AirdropCard.reserve_card` as one sequential composite (its three cursor
blocks run back to back): set the reservation fields on the in-memory object,
look the underlying card up, transfer its ownership if it exists (`card.save`),
persist the reservation (`self.save`), and return the card (or `None`).
`now` is the `datetime.utcnow()` taken for `reserved_at`. -/
def AirdropCard.reserve_card (db : DB) (self : AirdropCardRow) (userId : Int)
    (now : Nat) : DB × Option CardRow :=
  let self' := { self with is_reserved := true, reserved_by := some userId
                           reserved_at := some now }
  match Card.get_by_id db self.card_id with
  | some card =>
      let card' := { card with owner_id := userId }
      let db1 := Card.save_update db card'
      (AirdropCard.save_update db1 self', some card')
  | none => (AirdropCard.save_update db self', none)

/-- Outcome of the claim operation, per the spec contract
`claim(airdropID, claimantID) -> Card | NoCardsAvailable | AirdropInactive`.
`claimed none` is the source's path of handing back `None` when the pool row's
card does not exist. -/
inductive ClaimResult where
  | airdropInactive
  | noCardsAvailable
  | claimed (c : Option CardRow)
deriving DecidableEq, Repr

/-- Modelled from the spec: the claim operation itself (the chat-bot handler
that strings `Airdrop.get_by_id`, `AirdropCard.get_random_available_card` and
`AirdropCard.reserve_card` together) is not under `src/`; only its callees are.
Following §4.4: check the airdrop exists and `is_active` (else
`AirdropInactive`); select one unreserved row (`NoCardsAvailable` if none,
without mutation); otherwise reserve it and return the card.  The
already-claimed precondition is assumed upstream (the contract names no outcome
for it). -/
def claimAirdropCard (pick : Nat) (db : DB) (airdropId : Nat) (userId : Int)
    (now : Nat) : DB × ClaimResult :=
  match db.airdrops.find? (fun a => a.id == airdropId) with
  | none => (db, .airdropInactive)
  | some a =>
    if !a.is_active then (db, .airdropInactive)
    else
      match AirdropCard.get_random_available_card pick db airdropId with
      | none => (db, .noCardsAvailable)
      | some r =>
          let res := AirdropCard.reserve_card db r userId now
          (res.1, .claimed res.2)

/-- Where a single claimant stands between the committed transactions of its
claim.  Each `with get_db_cursor()` block of the source is one step:
`ready --select--> haveRow --read card--> haveCard --card.save--> wroteCard
--self.save--> finished`.  Locals (`r`, `c`) live in the claimant, not the DB. -/
inductive ClaimPhase where
  | ready
  | haveRow (r : AirdropCardRow)
  | haveCard (r : AirdropCardRow) (c : Option CardRow)
  | wroteCard (r : AirdropCardRow) (c : Option CardRow)
  | finished (res : ClaimResult)
deriving DecidableEq, Repr

/-- One committed transaction of one claimant running the claim operation.
Transcribes `get_random_available_card` / `reserve_card` with each cursor block
as a single atomic state transition (the airdrop-active precondition is assumed
to have been checked upstream). -/
def claimStep (pick airdropId : Nat) (userId : Int) (now : Nat) :
    ClaimPhase × DB → ClaimPhase × DB
  | (.ready, db) =>
      match AirdropCard.get_random_available_card pick db airdropId with
      | none => (.finished .noCardsAvailable, db)
      | some r => (.haveRow r, db)
  | (.haveRow r, db) => (.haveCard r (Card.get_by_id db r.card_id), db)
  | (.haveCard r none, db) => (.wroteCard r none, db)
  | (.haveCard r (some c), db) =>
      let c' := { c with owner_id := userId }
      (.wroteCard r (some c'), Card.save_update db c')
  | (.wroteCard r c, db) =>
      (.finished (.claimed c),
       AirdropCard.save_update db
         { r with is_reserved := true, reserved_by := some userId
                  reserved_at := some now })
  | (.finished o, db) => (.finished o, db)

/-- Two claimants racing on the same airdrop: the shared store plus each
claimant's private phase. -/
structure RaceState where
  a : ClaimPhase
  b : ClaimPhase
  db : DB
deriving DecidableEq, Repr

/-- Run one committed transaction of claimant `a` (`who = false`) or `b`
(`who = true`).  Both claimants use selection oracle 0 (immaterial when a
single unreserved row exists). -/
def raceStep (airdropId : Nat) (userA userB : Int) (nowA nowB : Nat)
    (who : Bool) (s : RaceState) : RaceState :=
  if who then
    let r := claimStep 0 airdropId userB nowB (s.b, s.db)
    { s with b := r.1, db := r.2 }
  else
    let r := claimStep 0 airdropId userA nowA (s.a, s.db)
    { s with a := r.1, db := r.2 }

/-- Run a whole interleaving of the two claimants' transactions. -/
def runRace (airdropId : Nat) (userA userB : Int) (nowA nowB : Nat)
    (sched : List Bool) (s : RaceState) : RaceState :=
  sched.foldl (fun st w => raceStep airdropId userA userB nowA nowB w st) s

/-- Did this claimant finish with a card in hand? -/
def ClaimPhase.claimedSomeCard : ClaimPhase → Bool
  | .finished (.claimed (some _)) => true
  | _ => false

/-- The single card of the race scenario: card 1, owned by user 0. -/
def raceCard : CardRow :=
  { id := 1, card_number := 1, name := "solo", owner_id := 0
    registration_date := "01.01.2024", expires := "Never"
    engraving_color := "white", has_background := false, collection_id := none
    created_at := 0, access_key := none, star_price := 1 }

/-- The active airdrop of the race scenario. -/
def raceAirdrop : AirdropRow :=
  { id := 1, name := "drop", description := "", creator_id := 0
    message_id := none, chat_id := none, is_active := true, created_at := 0 }

/-- The single unreserved pool row of the race scenario. -/
def racePoolRow : AirdropCardRow :=
  { id := 1, airdrop_id := 1, card_id := 1, is_reserved := false
    reserved_by := none, reserved_at := none }

/-- Store with one active airdrop holding exactly one unreserved pooled card. -/
def raceDB : DB :=
  { users := [], cards := [raceCard], collections := [], trade_links := []
    airdrops := [raceAirdrop], airdrop_cards := [racePoolRow]
    next_user_id := 1, next_card_id := 2, next_airdrop_card_id := 2 }

/-- Claim C1: the critical reservation invariant fails on the code.  With
airdrop 1 holding exactly one unreserved pool row, claimants 7 and 8 race; the
interleaving in which both run their `SELECT` transaction before either writes
makes BOTH claims finish with the card in hand (the row is flipped twice by the
guardless `UPDATE ... WHERE id = ?`, ending reserved by the later writer 8, who
also ends up owning the card) — instead of exactly one success and one
`NoCardsAvailable`. -/
theorem claim_race_double_assignment :
    (runRace 1 7 8 11 12 [false, true, false, false, false, true, true, true]
        { a := .ready, b := .ready, db := raceDB }).a.claimedSomeCard = true ∧
    (runRace 1 7 8 11 12 [false, true, false, false, false, true, true, true]
        { a := .ready, b := .ready, db := raceDB }).b.claimedSomeCard = true ∧
    (runRace 1 7 8 11 12 [false, true, false, false, false, true, true, true]
        { a := .ready, b := .ready, db := raceDB }).db.airdrop_cards =
      [{ racePoolRow with is_reserved := true, reserved_by := some 8
                          reserved_at := some 12 }] ∧
    (runRace 1 7 8 11 12 [false, true, false, false, false, true, true, true]
        { a := .ready, b := .ready, db := raceDB }).db.cards =
      [{ raceCard with owner_id := 8 }] := by
  decide

/-- A duplicated generator output used in the C2 scenario. -/
def duplicatedKey : String := "AAAA-AAAA-AAAA"

/-- Claim C2: `Card.save` performs no access-key uniqueness check and no retry:
when the generator yields the same key for two successive card creations, both
cards are persisted with identical access keys. -/
theorem card_save_no_collision_retry :
    ((Card.save_insert
        (Card.save_insert emptyDB 1 "first" 7 "01.01.2024" "Never" "white"
          false none 0 (some duplicatedKey) 1)
        2 "second" 8 "01.01.2024" "Never" "white"
          false none 0 (some duplicatedKey) 1).cards.map
      (fun c => (c.id, c.access_key))) =
      [(1, some duplicatedKey), (2, some duplicatedKey)] := by
  decide

/-- Claim C3: `reserve_card` does set `is_reserved`, `reserved_by`,
`reserved_at`, transfer the card's ownership and return the card — but across
three separately committed transactions, not one: after the `card.save`
transaction and before the `self.save` transaction there is a committed store
state in which the card already belongs to claimant 7 while the pool row is
still unreserved. -/
theorem reserve_card_not_single_transaction :
    (claimStep 0 1 7 11 (claimStep 0 1 7 11 (claimStep 0 1 7 11
        (.ready, raceDB)))).2.cards = [{ raceCard with owner_id := 7 }] ∧
    (claimStep 0 1 7 11 (claimStep 0 1 7 11 (claimStep 0 1 7 11
        (.ready, raceDB)))).2.airdrop_cards = [racePoolRow] ∧
    AirdropCard.reserve_card raceDB racePoolRow 7 11 =
      ({ raceDB with
           cards := [{ raceCard with owner_id := 7 }],
           airdrop_cards := [{ racePoolRow with
                               is_reserved := true,
                               reserved_by := some 7, reserved_at := some 11 }] },
       some { raceCard with owner_id := 7 }) := by
  decide

/-- Claim C4: `(airdrop_id, card_id)` is not unique in the pool — adding the
same card to the same airdrop twice creates two pool rows, because the schema
has no UNIQUE constraint for `INSERT OR IGNORE` to act on. -/
theorem add_card_duplicates_pool_row :
    ((Airdrop.add_card (Airdrop.add_card emptyDB 1 1) 1 1).airdrop_cards.filter
      (fun r => r.airdrop_id == 1 && r.card_id == 1)).length = 2 := by
  decide

/-- Filtering with `p` after keeping only the elements failing `p` yields
nothing. -/
theorem filter_not_self_eq_nil {α : Type} (p : α → Bool) (l : List α) :
    (l.filter fun a => !(p a)).filter p = [] := by
  induction l with
  | nil => rfl
  | cons a t ih =>
      cases hp : p a <;> simp [List.filter_cons, hp, ih]

/-- Keeping the elements failing `p` is idempotent. -/
theorem filter_not_idem {α : Type} (p : α → Bool) (l : List α) :
    ((l.filter fun a => !(p a)).filter fun a => !(p a)) =
      l.filter fun a => !(p a) := by
  rw [List.filter_filter]
  exact List.filter_congr fun a _ => by cases p a <;> rfl

/-- `find? p` skips a prefix from which all `p`-elements were filtered out. -/
theorem find?_filter_not_append {α : Type} (p : α → Bool) (l1 l2 : List α) :
    ((l1.filter fun a => !(p a)) ++ l2).find? p = l2.find? p := by
  rw [List.find?_append]
  have h : (l1.filter fun a => !(p a)).find? p = none := by
    rw [List.find?_eq_none]
    intro x hx
    rcases List.mem_filter.mp hx with ⟨-, hpx⟩
    simp at hpx
    simp [hpx]
  rw [h, Option.none_or]

/-- Claim C8 counterexample: `User.save` is not state-idempotent.  Saving
telegram user 5 twice leaves one row with the original `created_at` (10), but
`INSERT OR REPLACE` deletes the old row and re-inserts under a fresh
autoincrement id — the row's id moves from 1 to 2, so the store differs from
its state after the first save. -/
theorem user_save_second_save_changes_store :
    User.save (User.save emptyDB 5 (some ("u")) (some ("f")) false 10)
        5 (some ("u")) (some ("f")) false 20 ≠
      User.save emptyDB 5 (some ("u")) (some ("f")) false 10 ∧
    ((User.save emptyDB 5 (some ("u")) (some ("f")) false 10).users.map
      (fun u => (u.id, u.created_at))) = [(1, 10)] ∧
    ((User.save (User.save emptyDB 5 (some ("u")) (some ("f")) false 10)
        5 (some ("u")) (some ("f")) false 20).users.map
      (fun u => (u.id, u.created_at))) = [(2, 10)] := by
  decide

/-- Claim C8 (amended): `User.save` on an already-present `telegram_id` is an
upsert keyed by `telegram_id` — afterwards exactly one row carries that
`telegram_id`, with the original `created_at` preserved and the profile fields
updated, all other rows untouched — but the surviving row carries a fresh
autoincrement id, so the stores after the first and second save are not
identical. -/
theorem user_save_upsert_fresh_id (db : DB) (tg : Int)
    (un1 fn1 un2 fn2 : Option String) (a1 a2 : Bool) (t1 t2 : Nat) :
    ((User.save (User.save db tg un1 fn1 a1 t1) tg un2 fn2 a2 t2).users.filter
        (fun u => u.telegram_id == tg) =
      [{ id := (User.save db tg un1 fn1 a1 t1).next_user_id, telegram_id := tg,
         username := un2, first_name := fn2, is_admin := a2,
         created_at := ((db.users.find? (fun u => u.telegram_id == tg)).map
           (fun u => u.created_at)).getD t1 }]) ∧
    ((User.save (User.save db tg un1 fn1 a1 t1) tg un2 fn2 a2 t2).users.filter
        (fun u => !(u.telegram_id == tg)) =
      (User.save db tg un1 fn1 a1 t1).users.filter
        (fun u => !(u.telegram_id == tg))) ∧
    (User.save (User.save db tg un1 fn1 a1 t1) tg un2 fn2 a2 t2).next_user_id =
      db.next_user_id + 2 := by
  simp only [User.save, List.filter_append, List.filter_cons, List.filter_nil,
    find?_filter_not_append, List.find?_cons, filter_not_self_eq_nil,
    filter_not_idem, beq_self_eq_true, Bool.not_true, List.append_nil,
    List.nil_append, Option.map_some', Option.getD_some]
  simp

/-- Claim C10: when the pool row's `card_id` matches no card, `reserve_card`
still persists the reservation (`is_reserved`, `reserved_by`, `reserved_at`)
and returns `None` — the slot is consumed, no card changes hands and no other
table is touched. -/
theorem reserve_card_missing_card (db : DB) (self : AirdropCardRow) (u : Int)
    (t : Nat) (h : Card.get_by_id db self.card_id = none) :
    AirdropCard.reserve_card db self u t =
      ({ db with
           airdrop_cards := db.airdrop_cards.map (fun x =>
             if x.id == self.id then
               { x with is_reserved := true, reserved_by := some u,
                        reserved_at := some t }
             else x) }, none) := by
  unfold AirdropCard.reserve_card
  rw [h]
  rfl

/-- Store for the C10 witness: one pool row pointing at card 1, but no cards. -/
def missingCardDB : DB := { emptyDB with airdrop_cards := [racePoolRow] }

/-- Witness for C10 at a concrete store. -/
theorem reserve_card_missing_card_witness :
    Card.get_by_id missingCardDB racePoolRow.card_id = none ∧
    AirdropCard.reserve_card missingCardDB racePoolRow 7 11 =
      ({ missingCardDB with
           airdrop_cards := missingCardDB.airdrop_cards.map (fun x =>
             if x.id == racePoolRow.id then
               { x with is_reserved := true, reserved_by := some 7,
                        reserved_at := some 11 }
             else x) }, none) :=
  ⟨by decide, reserve_card_missing_card missingCardDB racePoolRow 7 11 (by decide)⟩

/-- Claim C7: an airdrop claim against a pool with no unreserved rows selects
nothing, returns `NoCardsAvailable` and leaves the whole store unchanged. -/
theorem claim_empty_pool_no_mutation (pick : Nat) (db : DB) (airdropId : Nat)
    (u : Int) (t : Nat) (a : AirdropRow)
    (ha : db.airdrops.find? (fun x => x.id == airdropId) = some a)
    (hact : a.is_active = true)
    (hempty : db.airdrop_cards.filter
      (fun r => r.airdrop_id == airdropId && !r.is_reserved) = []) :
    claimAirdropCard pick db airdropId u t = (db, .noCardsAvailable) := by
  unfold claimAirdropCard AirdropCard.get_random_available_card
  rw [ha]
  simp [hact, hempty]

/-- Store for the C7 witness: an active airdrop with an empty pool. -/
def emptyPoolDB : DB := { emptyDB with airdrops := [raceAirdrop] }

/-- Witness for C7 at a concrete store. -/
theorem claim_empty_pool_no_mutation_witness :
    emptyPoolDB.airdrops.find? (fun x => x.id == 1) = some raceAirdrop ∧
    raceAirdrop.is_active = true ∧
    emptyPoolDB.airdrop_cards.filter
      (fun r => r.airdrop_id == 1 && !r.is_reserved) = [] ∧
    claimAirdropCard 0 emptyPoolDB 1 7 5 = (emptyPoolDB, .noCardsAvailable) :=
  ⟨by decide, by decide, by decide,
   claim_empty_pool_no_mutation 0 emptyPoolDB 1 7 5 raceAirdrop
     (by decide) (by decide) (by decide)⟩

/-- The alphabet `string.ascii_uppercase + string.digits` that
`generate_access_key` draws from. -/
def accessKeyChars : List Char := "ABCDEFGHIJKLMNOPQRSTUVWXYZ0123456789".data

/-- One `secrets.choice(chars)` draw: the oracle's answer indexes the alphabet. -/
def accessKeyChar (i : Fin 36) : Char := accessKeyChars.getD i.val ('A')

/-- `generate_access_key`: three groups of four `secrets.choice(chars)`
characters, joined by `'-'`.  The cryptographically secure random source
(Python's `secrets` module) is modelled as the choice oracle, mapping the
draw number to the chosen alphabet index; the format property below holds for
every oracle. -/
def generate_access_key (choice : Nat → Fin 36) : String :=
  let parts := (List.range 3).map (fun p =>
    (List.range 4).map (fun j => accessKeyChar (choice (4 * p + j))))
  String.mk (List.intercalate ['-'] parts)

/-- Is the character in the class `[A-Z0-9]`? -/
def accessKeyCharOk (c : Char) : Bool :=
  ('A' ≤ c && c ≤ 'Z') || ('0' ≤ c && c ≤ '9')

/-- Direct transcription of `^[A-Z0-9]{4}-[A-Z0-9]{4}-[A-Z0-9]{4}$`. -/
def matchesAccessKeyFormat (s : String) : Bool :=
  match s.data with
  | [c1, c2, c3, c4, d1, c5, c6, c7, c8, d2, c9, c10, c11, c12] =>
      d1 == '-' && d2 == '-' &&
      [c1, c2, c3, c4, c5, c6, c7, c8, c9, c10, c11, c12].all accessKeyCharOk
  | _ => false

/-- Claim C9: whatever the random draws, the generated key is three 4-character
groups over `[A-Z0-9]` joined by `'-'`. -/
theorem generate_access_key_format (choice : Nat → Fin 36) :
    matchesAccessKeyFormat (generate_access_key choice) = true := by
  have hok : ∀ i : Fin 36, accessKeyCharOk (accessKeyChar i) = true := by decide
  simp [generate_access_key, matchesAccessKeyFormat, List.intercalate,
    List.range_succ, hok]

/-- One table of the structural schema: its name and ordered column list. -/
structure TableSchema where
  name : String
  cols : List String
deriving DecidableEq, Repr

/-- The structural state `init_db` acts on: tables in creation order, the
named indexes, and the `schema_migrations` history rows `(version,
applied_at)`.  Row data lives outside this state, so the v1.4.0 link-id
backfill and the v1.5.0 star-price backfill — pure row updates — do not show
up here; the `PRAGMA integrity_check` at the end is a read whose failure is
only printed. -/
structure SchemaDB where
  tables : List TableSchema
  indexes : List String
  versions : List (String × Nat)
deriving DecidableEq, Repr

/-- A store file that does not exist yet. -/
def emptySchemaDB : SchemaDB := { tables := [], indexes := [], versions := [] }

/-- `CREATE TABLE IF NOT EXISTS`. -/
def createTableIfNotExists (n : String) (cols : List String)
    (db : SchemaDB) : SchemaDB :=
  if db.tables.any (fun t => t.name == n) then db
  else { db with tables := db.tables ++ [{ name := n, cols := cols }] }

/-- The `PRAGMA table_info` introspection guard plus
`ALTER TABLE ... ADD COLUMN` (`if col not in columns: ...`). -/
def addColumnIfMissing (n col : String) (db : SchemaDB) : SchemaDB :=
  { db with
    tables := db.tables.map (fun t =>
      if t.name == n && !(t.cols.contains col) then
        { t with cols := t.cols ++ [col] }
      else t) }

/-- `CREATE UNIQUE INDEX IF NOT EXISTS`. -/
def createIndexIfNotExists (n : String) (db : SchemaDB) : SchemaDB :=
  if db.indexes.contains n then db
  else { db with indexes := db.indexes ++ [n] }

/-- Lexicographic code-point order on char lists: Python's `str <` and
SQLite's BINARY collation agree on the ASCII version strings. -/
def charListLt : List Char → List Char → Bool
  | [], [] => false
  | [], _ :: _ => true
  | _ :: _, [] => false
  | a :: as, b :: bs =>
      if a.toNat < b.toNat then true
      else if b.toNat < a.toNat then false
      else charListLt as bs

/-- `version1 < version2` as Python compares the strings. -/
def strLt (a b : String) : Bool := charListLt a.data b.data

/-- `SELECT version FROM schema_migrations ORDER BY version DESC LIMIT 1`,
defaulting to `0.0.0` when no row exists. -/
def currentVersion (db : SchemaDB) : String :=
  (db.versions.map (fun p => p.1)).foldl
    (fun acc v => if strLt acc v then v else acc) ("0.0.0")

/-- `INSERT OR REPLACE INTO schema_migrations (version) VALUES (?)`: `version`
is the primary key, so a conflicting row is deleted and re-inserted with a
fresh `applied_at DEFAULT CURRENT_TIMESTAMP`. -/
def recordVersion (v : String) (t : Nat) (db : SchemaDB) : SchemaDB :=
  { db with versions := db.versions.filter (fun p => !(p.1 == v)) ++ [(v, t)] }

/-- `migrate_to_v1_0_0`: initial schema — users, collections, cards,
trade_links. -/
def migrate_to_v1_0_0 (db : SchemaDB) : SchemaDB :=
  db |> createTableIfNotExists ("users")
          ["id", "telegram_id", "username", "first_name", "is_admin",
           "created_at"]
     |> createTableIfNotExists ("collections")
          ["id", "name", "description", "author_id", "star_price",
           "is_published", "link_id", "created_at"]
     |> createTableIfNotExists ("cards")
          ["id", "card_number", "name", "owner_id", "registration_date",
           "expires", "engraving_color", "has_background", "collection_id",
           "created_at"]
     |> createTableIfNotExists ("trade_links")
          ["id", "link_id", "card_id", "seller_id", "price", "is_gift",
           "created_at", "is_active"]

/-- `migrate_to_v1_1_0`: collection_links table, plus guarded `description` /
`is_published` columns on collections. -/
def migrate_to_v1_1_0 (db : SchemaDB) : SchemaDB :=
  db |> createTableIfNotExists ("collection_links")
          ["id", "link_id", "collection_id", "seller_id", "created_at",
           "is_active"]
     |> addColumnIfMissing ("collections") ("description")
     |> addColumnIfMissing ("collections") ("is_published")

/-- `migrate_to_v1_2_0`: guarded `access_key` column on cards. -/
def migrate_to_v1_2_0 (db : SchemaDB) : SchemaDB :=
  addColumnIfMissing ("cards") ("access_key") db

/-- `migrate_to_v1_3_0`: guarded reservation columns on collections. -/
def migrate_to_v1_3_0 (db : SchemaDB) : SchemaDB :=
  db |> addColumnIfMissing ("collections") ("reservation_status")
     |> addColumnIfMissing ("collections") ("reserved_by")
     |> addColumnIfMissing ("collections") ("reserved_at")

/-- `migrate_to_v1_4_0`: guarded `link_id` column on collections plus its
unique index (the per-row link-id backfill is row data, outside this state). -/
def migrate_to_v1_4_0 (db : SchemaDB) : SchemaDB :=
  db |> addColumnIfMissing ("collections") ("link_id")
     |> createIndexIfNotExists ("idx_collections_link_id")

/-- `migrate_to_v1_5_0`: guarded `star_price` column on cards (the
`UPDATE cards SET star_price = 1 WHERE star_price IS NULL` backfill is row
data, outside this state). -/
def migrate_to_v1_5_0 (db : SchemaDB) : SchemaDB :=
  addColumnIfMissing ("cards") ("star_price") db

/-- `migrate_to_v1_6_0`: airdrops and airdrop_cards tables. -/
def migrate_to_v1_6_0 (db : SchemaDB) : SchemaDB :=
  db |> createTableIfNotExists ("airdrops")
          ["id", "name", "description", "creator_id", "message_id", "chat_id",
           "is_active", "created_at"]
     |> createTableIfNotExists ("airdrop_cards")
          ["id", "airdrop_id", "card_id", "is_reserved", "reserved_by",
           "reserved_at"]

/-- `migrate_to_v1_7_0`: guarded `cover_image` column on airdrops. -/
def migrate_to_v1_7_0 (db : SchemaDB) : SchemaDB :=
  addColumnIfMissing ("airdrops") ("cover_image") db

/-- `init_db`: ensure the migration table, read the highest recorded version,
apply every step whose version exceeds it (Python string comparison), and
`INSERT OR REPLACE` the `1.7.0` marker.  `now` is the `CURRENT_TIMESTAMP` the
re-inserted marker row receives. -/
def init_db (now : Nat) (db : SchemaDB) : SchemaDB :=
  let db := createTableIfNotExists ("schema_migrations")
    ["version", "applied_at"] db
  let cur := currentVersion db
  let db := if strLt cur ("1.0.0") then migrate_to_v1_0_0 db else db
  let db := if strLt cur ("1.1.0") then migrate_to_v1_1_0 db else db
  let db := if strLt cur ("1.2.0") then migrate_to_v1_2_0 db else db
  let db := if strLt cur ("1.3.0") then migrate_to_v1_3_0 db else db
  let db := if strLt cur ("1.4.0") then migrate_to_v1_4_0 db else db
  let db := if strLt cur ("1.5.0") then migrate_to_v1_5_0 db else db
  let db := if strLt cur ("1.6.0") then migrate_to_v1_6_0 db else db
  let db := if strLt cur ("1.7.0") then migrate_to_v1_7_0 db else db
  recordVersion ("1.7.0") now db

/-- The ordered migration steps with their version stamps. -/
def migrationSteps : List (String × (SchemaDB → SchemaDB)) :=
  [("1.0.0", migrate_to_v1_0_0), ("1.1.0", migrate_to_v1_1_0),
   ("1.2.0", migrate_to_v1_2_0), ("1.3.0", migrate_to_v1_3_0),
   ("1.4.0", migrate_to_v1_4_0), ("1.5.0", migrate_to_v1_5_0),
   ("1.6.0", migrate_to_v1_6_0), ("1.7.0", migrate_to_v1_7_0)]

/-- A store of an earlier deployment: the migration table plus every step with
version at most `v`, applied in order, stamped `v` at time `t`. -/
def storeAtVersion (v : String) (t : Nat) : SchemaDB :=
  recordVersion v t
    ((migrationSteps.filter (fun s => !(strLt v s.1))).foldl (fun d s => s.2 d)
      (createTableIfNotExists ("schema_migrations")
        ["version", "applied_at"] emptySchemaDB))

/-- The store with the version rows' `applied_at` timestamps forgotten. -/
structure SchemaShape where
  tables : List TableSchema
  indexes : List String
  versions : List String
deriving DecidableEq, Repr

/-- Forget the version timestamps. -/
def SchemaDB.shape (db : SchemaDB) : SchemaShape :=
  { tables := db.tables, indexes := db.indexes,
    versions := db.versions.map (fun p => p.1) }

/-- Claim C6 counterexample: re-running `init_db` on a store that is already at
version 1.7.0 is not a no-op — `INSERT OR REPLACE` re-inserts the marker row,
refreshing its `applied_at` timestamp, so the store after the second run (at
time 1) differs from the store after the first (at time 0). -/
theorem init_db_rerun_changes_store :
    init_db 1 (init_db 0 emptySchemaDB) ≠ init_db 0 emptySchemaDB ∧
    (init_db 0 emptySchemaDB).versions = [(("1.7.0"), 0)] ∧
    (init_db 1 (init_db 0 emptySchemaDB)).versions = [(("1.7.0"), 1)] := by
  decide

/-- Claim C6 (amended): `init_db` is convergent and idempotent up to the
version marker's `applied_at` timestamp — from a fresh store and from a store
pre-populated at any intermediate recorded version it reaches the same tables,
indexes and current version `1.7.0`, and re-running it on a current store
changes nothing except re-stamping the `1.7.0` marker row. -/
theorem init_db_convergent_idempotent (v : String)
    (hv : v ∈ migrationSteps.map (fun s => s.1)) :
    ((init_db 1 (storeAtVersion v 0)).tables =
        (init_db 1 emptySchemaDB).tables ∧
      (init_db 1 (storeAtVersion v 0)).indexes =
        (init_db 1 emptySchemaDB).indexes ∧
      currentVersion (init_db 1 (storeAtVersion v 0)) = ("1.7.0") ∧
      currentVersion (init_db 1 emptySchemaDB) = ("1.7.0")) ∧
    (init_db 2 (init_db 1 emptySchemaDB)).shape =
      (init_db 1 emptySchemaDB).shape := by
  simp only [migrationSteps, List.map_cons, List.map_nil, List.mem_cons,
    List.not_mem_nil, or_false] at hv
  rcases hv with rfl | rfl | rfl | rfl | rfl | rfl | rfl | rfl <;> decide

/-- Witness for the amended C6 at the intermediate version 1.3.0. -/
theorem init_db_convergent_idempotent_witness :
    ("1.3.0") ∈ migrationSteps.map (fun s => s.1) ∧
    (((init_db 1 (storeAtVersion ("1.3.0") 0)).tables =
        (init_db 1 emptySchemaDB).tables ∧
      (init_db 1 (storeAtVersion ("1.3.0") 0)).indexes =
        (init_db 1 emptySchemaDB).indexes ∧
      currentVersion (init_db 1 (storeAtVersion ("1.3.0") 0)) = ("1.7.0") ∧
      currentVersion (init_db 1 emptySchemaDB) = ("1.7.0")) ∧
    (init_db 2 (init_db 1 emptySchemaDB)).shape =
      (init_db 1 emptySchemaDB).shape) :=
  ⟨by decide, init_db_convergent_idempotent ("1.3.0") (by decide)⟩

/-- `UPDATE collections SET star_price = ? WHERE id = ?`. -/
def setCollectionPrice (db : DB) (collId : Nat) (p : Int) : DB :=
  { db with
    collections := db.collections.map (fun k =>
      if k.id == collId then { k with star_price := p } else k) }

/-- `Collection.get_cards`: `SELECT * FROM cards WHERE collection_id = ?`. -/
def Collection.get_cards (db : DB) (collId : Nat) : List CardRow :=
  db.cards.filter (fun c => c.collection_id == some collId)

/-- `ORDER BY created_at DESC`: `a` may precede `b` when `a` was created no
earlier. -/
def createdDescRel (a b : TradeLinkRow) : Prop := b.created_at ≤ a.created_at

instance : DecidableRel createdDescRel :=
  fun a b => Nat.decLe b.created_at a.created_at

instance : IsTotal TradeLinkRow createdDescRel :=
  ⟨fun a b => (Nat.le_total b.created_at a.created_at).imp id id⟩

instance : IsTrans TradeLinkRow createdDescRel :=
  ⟨fun _ _ _ h1 h2 => Nat.le_trans h2 h1⟩

/-- The `card_prices` dict loop of `update_price`: walk the price rows in
query order, keeping the first (= most recently created) price seen per card. -/
def collectPrices : List (Nat × Int) → List TradeLinkRow → List (Nat × Int)
  | acc, [] => acc
  | acc, l :: rest =>
      if (acc.lookup l.card_id).isSome then collectPrices acc rest
      else collectPrices (acc ++ [(l.card_id, l.price)]) rest

/-- `Collection.update_price`.  The administrative flag `ENABLE_COLLECTIONS`
that the method imports from `config` is not defined in `src/config.py`, so it
is modelled from the spec as the parameter `enableCollections` ("If the
store's collection feature is administratively disabled, price is forced to
zero").  Otherwise the method loads the collection's cards (returning 0 when
there are none), selects their rows from `trade_links WHERE card_id IN (...)
AND is_active = 1 AND is_gift = 0 ORDER BY created_at DESC`, keeps the first
price per card, sums, persists the total onto the collection and returns it. -/
def Collection.update_price (enableCollections : Bool) (db : DB)
    (collId : Nat) : DB × Int :=
  if !enableCollections then (setCollectionPrice db collId 0, 0)
  else
    let cards := Collection.get_cards db collId
    if cards.isEmpty then (setCollectionPrice db collId 0, 0)
    else
      let cardIds := cards.map (fun c => c.id)
      let links := db.trade_links.filter (fun l =>
        cardIds.contains l.card_id && l.is_active && !l.is_gift)
      let sorted := List.insertionSort createdDescRel links
      let prices := collectPrices [] sorted
      let total := (prices.map (fun p => p.2)).sum
      (setCollectionPrice db collId total, total)

/-- The trade link with the greatest `created_at` among the given rows. -/
def maxByCreated : List TradeLinkRow → Option TradeLinkRow
  | [] => none
  | l :: rest =>
      match maxByCreated rest with
      | none => some l
      | some m => if l.created_at < m.created_at then some m else some l

/-- Specification-side contribution of one card: the price of its most
recently created active non-gift trade link, zero when it has none. -/
def latestActivePrice (db : DB) (cardId : Nat) : Int :=
  match maxByCreated (db.trade_links.filter (fun l =>
      l.card_id == cardId && l.is_active && !l.is_gift)) with
  | none => 0
  | some m => m.price

/-- Looking a key up after appending one pair. -/
theorem lookup_append_single {β : Type} (acc : List (Nat × β)) (c : Nat)
    (v : β) (k : Nat) :
    (acc ++ [(c, v)]).lookup k =
      (acc.lookup k).or (if k == c then some v else none) := by
  induction acc with
  | nil => cases hk : k == c <;> simp [List.lookup, hk]
  | cons p t ih =>
      obtain ⟨a, b⟩ := p
      cases hk : k == a <;> simp [List.lookup_cons, hk, ih]

/-- A key that looks up to nothing is not among the keys. -/
theorem lookup_none_not_mem {β : Type} (acc : List (Nat × β)) (k : Nat)
    (h : acc.lookup k = none) : k ∉ acc.map (fun p => p.1) := by
  induction acc with
  | nil => simp
  | cons p t ih =>
      obtain ⟨a, b⟩ := p
      rw [List.lookup_cons] at h
      cases hk : k == a with
      | true => rw [hk] at h; simp at h
      | false =>
          rw [hk] at h
          simp only [List.map_cons, List.mem_cons]
          rintro (rfl | hm)
          · simp at hk
          · exact ih h hm

/-- What `collectPrices` answers for any key: the accumulator binding when
present, else the first matching row of the remaining list. -/
theorem lookup_collectPrices (ls : List TradeLinkRow) :
    ∀ (acc : List (Nat × Int)) (k : Nat),
      (collectPrices acc ls).lookup k =
        (acc.lookup k).or
          ((ls.find? (fun l => l.card_id == k)).map (fun l => l.price)) := by
  induction ls with
  | nil =>
      intro acc k
      cases h : acc.lookup k <;> simp [collectPrices, h]
  | cons l rest ih =>
      intro acc k
      by_cases hcase : (acc.lookup l.card_id).isSome
      · obtain ⟨w, hl⟩ := Option.isSome_iff_exists.mp hcase
        rw [show collectPrices acc (l :: rest) = collectPrices acc rest by
          simp [collectPrices, hl]]
        rw [ih acc k, List.find?_cons]
        cases hk : l.card_id == k with
        | true =>
            obtain rfl : l.card_id = k := beq_iff_eq.mp hk
            simp [hl]
        | false => rfl
      · have hl : acc.lookup l.card_id = none :=
          Option.not_isSome_iff_eq_none.mp hcase
        rw [show collectPrices acc (l :: rest) =
              collectPrices (acc ++ [(l.card_id, l.price)]) rest by
          simp [collectPrices, hl]]
        rw [ih _ k, lookup_append_single, List.find?_cons]
        cases hk : l.card_id == k with
        | true =>
            obtain rfl : l.card_id = k := beq_iff_eq.mp hk
            simp [hl]
        | false =>
            have hk2 : (k == l.card_id) = false := by
              cases hkk : k == l.card_id with
              | false => rfl
              | true =>
                  obtain rfl : k = l.card_id := beq_iff_eq.mp hkk
                  simp at hk
            simp [hk2]

/-- `collectPrices` never duplicates a key. -/
theorem collectPrices_keys_nodup (ls : List TradeLinkRow) :
    ∀ acc : List (Nat × Int), (acc.map (fun p => p.1)).Nodup →
      ((collectPrices acc ls).map (fun p => p.1)).Nodup := by
  induction ls with
  | nil => intro acc h; exact h
  | cons l rest ih =>
      intro acc h
      by_cases hcase : (acc.lookup l.card_id).isSome
      · rw [show collectPrices acc (l :: rest) = collectPrices acc rest by
          obtain ⟨w, hl⟩ := Option.isSome_iff_exists.mp hcase
          simp [collectPrices, hl]]
        exact ih acc h
      · have hl : acc.lookup l.card_id = none :=
          Option.not_isSome_iff_eq_none.mp hcase
        rw [show collectPrices acc (l :: rest) =
              collectPrices (acc ++ [(l.card_id, l.price)]) rest by
          simp [collectPrices, hl]]
        refine ih _ ?_
        rw [List.map_append, List.nodup_append]
        refine ⟨h, by simp, ?_⟩
        intro x hx hx2
        simp only [List.map_cons, List.map_nil, List.mem_singleton] at hx2
        subst hx2
        exact lookup_none_not_mem acc l.card_id hl hx

/-- Every key produced by `collectPrices` comes from the accumulator or from
some row's `card_id`. -/
theorem collectPrices_keys_subset (ls : List TradeLinkRow) :
    ∀ (acc : List (Nat × Int)) (k : Nat),
      k ∈ (collectPrices acc ls).map (fun p => p.1) →
      k ∈ acc.map (fun p => p.1) ∨ k ∈ ls.map (fun l => l.card_id) := by
  induction ls with
  | nil => intro acc k h; exact Or.inl h
  | cons l rest ih =>
      intro acc k h
      by_cases hcase : (acc.lookup l.card_id).isSome
      · rw [show collectPrices acc (l :: rest) = collectPrices acc rest by
          obtain ⟨w, hl⟩ := Option.isSome_iff_exists.mp hcase
          simp [collectPrices, hl]] at h
        rcases ih acc k h with h1 | h1
        · exact Or.inl h1
        · exact Or.inr (by simp [h1])
      · have hl : acc.lookup l.card_id = none :=
          Option.not_isSome_iff_eq_none.mp hcase
        rw [show collectPrices acc (l :: rest) =
              collectPrices (acc ++ [(l.card_id, l.price)]) rest by
          simp [collectPrices, hl]] at h
        rcases ih _ k h with h1 | h1
        · rw [List.map_append] at h1
          rcases List.mem_append.mp h1 with h2 | h2
          · exact Or.inl h2
          · simp only [List.map_cons, List.map_nil, List.mem_singleton] at h2
            exact Or.inr (by simp [h2])
        · exact Or.inr (by simp [h1])

/-- Summing an association list's values equals summing, over any duplicate-free
key cover, what each key looks up to (absent keys contributing zero). -/
theorem sum_values_eq_sum_lookup (ps : List (Nat × Int)) :
    ∀ ids : List Nat, (ps.map (fun p => p.1)).Nodup → ids.Nodup →
      (∀ k ∈ ps.map (fun p => p.1), k ∈ ids) →
      (ps.map (fun p => p.2)).sum =
        (ids.map (fun c => (ps.lookup c).getD 0)).sum := by
  induction ps with
  | nil =>
      intro ids _ _ _
      induction ids with
      | nil => rfl
      | cons a t iht => simp [List.lookup, iht]
  | cons p ps ih =>
      obtain ⟨a, v⟩ := p
      intro ids hkeys hids hsub
      have hmem : a ∈ ids := hsub a (by simp)
      have hknodup : (ps.map (fun p => p.1)).Nodup ∧
          a ∉ ps.map (fun p => p.1) := by
        simp only [List.map_cons, List.nodup_cons] at hkeys
        exact ⟨hkeys.2, hkeys.1⟩
      have hperm : ids.Perm (a :: ids.erase a) := List.perm_cons_erase hmem
      rw [(hperm.map (fun c => (((a, v) :: ps).lookup c).getD 0)).sum_eq]
      simp only [List.map_cons, List.sum_cons]
      have hha : (((a, v) :: ps).lookup a).getD 0 = v := by
        simp [List.lookup_cons]
      rw [hha]
      have hcongr : (ids.erase a).map (fun c => (((a, v) :: ps).lookup c).getD 0) =
          (ids.erase a).map (fun c => (ps.lookup c).getD 0) := by
        refine List.map_congr_left fun c hc => ?_
        have hca : c ≠ a := ((hids.mem_erase_iff).mp hc).1
        have : (c == a) = false := by
          cases hc2 : c == a with
          | false => rfl
          | true => exact absurd (beq_iff_eq.mp hc2) hca
        simp [List.lookup_cons, this]
      rw [hcongr]
      have hrest : (ps.map (fun p => p.2)).sum =
          ((ids.erase a).map (fun c => (ps.lookup c).getD 0)).sum := by
        refine ih (ids.erase a) hknodup.1 (hids.erase a) ?_
        intro k hk
        have hka : k ≠ a := fun h => hknodup.2 (h ▸ hk)
        exact (hids.mem_erase_iff).mpr ⟨hka, hsub k (by simp [hk])⟩
      rw [hrest]

/-- In a list sorted by `created_at DESC`, the first match of a predicate is a
match of maximal `created_at` among all matches. -/
theorem find?_sorted_max (l : List TradeLinkRow)
    (hs : List.Sorted createdDescRel l) (p : TradeLinkRow → Bool)
    (res : TradeLinkRow) (h : l.find? p = some res) :
    p res = true ∧ res ∈ l ∧
      ∀ x ∈ l, p x = true → x.created_at ≤ res.created_at := by
  induction l with
  | nil => exact absurd h (by simp)
  | cons a t ih =>
      obtain ⟨hhead, htail⟩ := List.sorted_cons.mp hs
      rw [List.find?_cons] at h
      cases hp : p a with
      | true =>
          rw [hp] at h
          obtain rfl : a = res := by simpa using h
          refine ⟨hp, by simp, ?_⟩
          intro x hx _
          rcases List.mem_cons.mp hx with rfl | hxt
          · exact Nat.le_refl _
          · exact hhead x hxt
      | false =>
          rw [hp] at h
          obtain ⟨hr1, hr2, hr3⟩ := ih htail h
          refine ⟨hr1, by simp [hr2], ?_⟩
          intro x hx hpx
          rcases List.mem_cons.mp hx with rfl | hxt
          · rw [hpx] at hp; cases hp
          · exact hr3 x hxt hpx

/-- `maxByCreated` returns nothing only on the empty list. -/
theorem maxByCreated_eq_none (ls : List TradeLinkRow) :
    maxByCreated ls = none ↔ ls = [] := by
  cases ls with
  | nil => simp [maxByCreated]
  | cons l rest =>
      simp only [maxByCreated]
      cases maxByCreated rest with
      | none => simp
      | some m =>
          by_cases h : l.created_at < m.created_at <;> simp [h]

/-- `maxByCreated` returns a member of maximal `created_at`. -/
theorem maxByCreated_spec (ls : List TradeLinkRow) :
    ∀ m : TradeLinkRow, maxByCreated ls = some m →
      m ∈ ls ∧ ∀ x ∈ ls, x.created_at ≤ m.created_at := by
  induction ls with
  | nil => intro m h; exact absurd h (by simp [maxByCreated])
  | cons l rest ih =>
      intro m h
      rw [maxByCreated] at h
      cases hr : maxByCreated rest with
      | none =>
          rw [hr] at h
          dsimp only at h
          obtain rfl : l = m := by simpa using h
          have : rest = [] := (maxByCreated_eq_none rest).mp hr
          subst this
          refine ⟨by simp, ?_⟩
          intro x hx
          rcases List.mem_cons.mp hx with rfl | hxt
          · exact Nat.le_refl _
          · cases hxt
      | some m2 =>
          rw [hr] at h
          dsimp only at h
          obtain ⟨hm2, hmax2⟩ := ih m2 hr
          by_cases hlt : l.created_at < m2.created_at
          · rw [if_pos hlt] at h
            obtain rfl : m2 = m := by simpa using h
            refine ⟨by simp [hm2], ?_⟩
            intro x hx
            rcases List.mem_cons.mp hx with rfl | hxt
            · exact Nat.le_of_lt hlt
            · exact hmax2 x hxt
          · rw [if_neg hlt] at h
            obtain rfl : l = m := by simpa using h
            refine ⟨by simp, ?_⟩
            intro x hx
            rcases List.mem_cons.mp hx with rfl | hxt
            · exact Nat.le_refl _
            · exact Nat.le_trans (hmax2 x hxt) (Nat.le_of_not_lt hlt)

/-- Two rows of a creation-time-duplicate-free list with equal `created_at`
are the same row. -/
theorem eq_of_created_at_eq (ls : List TradeLinkRow)
    (hn : (ls.map (fun l => l.created_at)).Nodup) {x y : TradeLinkRow}
    (hx : x ∈ ls) (hy : y ∈ ls) (hc : x.created_at = y.created_at) : x = y := by
  have hp : List.Pairwise (fun a b : TradeLinkRow =>
      a.created_at ≠ b.created_at) ls := List.pairwise_map.mp hn
  by_contra hne
  exact (hp.forall (fun _ _ hab => hab.symm) hx hy hne) hc

/-- The heart of C5: the dict-and-sum computed by `update_price` over the
sorted query result equals the sum of the per-card latest active non-gift
prices. -/
theorem collect_sum_eq_latest (db : DB) (collId : Nat)
    (hcard : (db.cards.map (fun c => c.id)).Nodup)
    (hts : (db.trade_links.map (fun l => l.created_at)).Nodup) :
    ((collectPrices []
        (List.insertionSort createdDescRel
          (db.trade_links.filter (fun l =>
            ((Collection.get_cards db collId).map
                (fun c => c.id)).contains l.card_id &&
              l.is_active && !l.is_gift)))).map (fun p => p.2)).sum =
      ((Collection.get_cards db collId).map
        (fun c => latestActivePrice db c.id)).sum := by
  have hidnd : ((Collection.get_cards db collId).map (fun c => c.id)).Nodup := by
    refine List.Nodup.sublist (List.Sublist.map _ ?_) hcard
    exact List.filter_sublist db.cards
  set cardIds := (Collection.get_cards db collId).map (fun c => c.id)
    with hIds
  set S := db.trade_links.filter (fun l =>
    cardIds.contains l.card_id && l.is_active && !l.is_gift) with hS
  set sorted := List.insertionSort createdDescRel S with hsortdef
  have hperm : sorted.Perm S := List.perm_insertionSort createdDescRel S
  have hsorted : List.Sorted createdDescRel sorted :=
    List.sorted_insertionSort createdDescRel S
  have hknd : ((collectPrices [] sorted).map (fun p => p.1)).Nodup :=
    collectPrices_keys_nodup sorted [] (by simp)
  have hmemS : ∀ x : TradeLinkRow, x ∈ S ↔
      x ∈ db.trade_links ∧ x.card_id ∈ cardIds ∧
        x.is_active = true ∧ x.is_gift = false := by
    intro x
    rw [hS, List.mem_filter]
    constructor
    · rintro ⟨hx, hpx⟩
      simp only [Bool.and_eq_true, Bool.not_eq_true'] at hpx
      exact ⟨hx, List.elem_iff.mp hpx.1.1, hpx.1.2, hpx.2⟩
    · rintro ⟨hx, hid, hact, hgift⟩
      refine ⟨hx, ?_⟩
      simp only [Bool.and_eq_true, Bool.not_eq_true']
      exact ⟨⟨List.elem_iff.mpr hid, hact⟩, hgift⟩
  have hsub : ∀ k ∈ (collectPrices [] sorted).map (fun p => p.1), k ∈ cardIds := by
    intro k hk
    rcases collectPrices_keys_subset sorted [] k hk with h0 | h1
    · cases h0
    · rcases List.mem_map.mp h1 with ⟨l, hls, rfl⟩
      exact ((hmemS l).mp ((hperm.mem_iff).mp hls)).2.1
  rw [sum_values_eq_sum_lookup (collectPrices [] sorted) cardIds hknd hidnd hsub]
  have hmapmap : ((Collection.get_cards db collId).map
      (fun c => latestActivePrice db c.id)).sum =
      (cardIds.map (fun k => latestActivePrice db k)).sum := by
    rw [hIds, List.map_map]
    rfl
  rw [hmapmap]
  congr 1
  refine List.map_congr_left fun k hk => ?_
  rw [lookup_collectPrices sorted [] k]
  simp only [List.lookup, Option.none_or]
  have hmemPk : ∀ x : TradeLinkRow,
      x ∈ db.trade_links.filter (fun l =>
        l.card_id == k && l.is_active && !l.is_gift) ↔
      x ∈ db.trade_links ∧ x.card_id = k ∧
        x.is_active = true ∧ x.is_gift = false := by
    intro x
    rw [List.mem_filter]
    constructor
    · rintro ⟨hx, hpx⟩
      simp only [Bool.and_eq_true, Bool.not_eq_true'] at hpx
      exact ⟨hx, beq_iff_eq.mp hpx.1.1, hpx.1.2, hpx.2⟩
    · rintro ⟨hx, hid, hact, hgift⟩
      refine ⟨hx, ?_⟩
      simp only [Bool.and_eq_true, Bool.not_eq_true']
      exact ⟨⟨beq_iff_eq.mpr hid, hact⟩, hgift⟩
  cases hf : sorted.find? (fun l => l.card_id == k) with
  | none =>
      have hPk : db.trade_links.filter (fun l =>
          l.card_id == k && l.is_active && !l.is_gift) = [] := by
        rw [List.eq_nil_iff_forall_not_mem]
        intro x hxm
        obtain ⟨hx, hid, hact, hgift⟩ := (hmemPk x).mp hxm
        have hxS : x ∈ sorted := (hperm.mem_iff).mpr
          ((hmemS x).mpr ⟨hx, hid ▸ hk, hact, hgift⟩)
        have := List.find?_eq_none.mp hf x hxS
        exact this (beq_iff_eq.mpr hid)
      simp [latestActivePrice, hPk, maxByCreated]
  | some res =>
      obtain ⟨hpres, hresmem, hmax⟩ :=
        find?_sorted_max sorted hsorted _ res hf
      obtain ⟨hresdb, hresid, hresact, hresgift⟩ :=
        (hmemS res).mp ((hperm.mem_iff).mp hresmem)
      have hreskid : res.card_id = k := beq_iff_eq.mp hpres
      have hresPk : res ∈ db.trade_links.filter (fun l =>
          l.card_id == k && l.is_active && !l.is_gift) :=
        (hmemPk res).mpr ⟨hresdb, hreskid, hresact, hresgift⟩
      cases hM : maxByCreated (db.trade_links.filter (fun l =>
          l.card_id == k && l.is_active && !l.is_gift)) with
      | none =>
          rw [maxByCreated_eq_none] at hM
          rw [hM] at hresPk
          cases hresPk
      | some m =>
          obtain ⟨hmPk, hmmax⟩ := maxByCreated_spec _ m hM
          obtain ⟨hmdb, hmid, hmact, hmgift⟩ := (hmemPk m).mp hmPk
          have hmS : m ∈ sorted := (hperm.mem_iff).mpr
            ((hmemS m).mpr ⟨hmdb, hmid ▸ hk, hmact, hmgift⟩)
          have h1 : m.created_at ≤ res.created_at :=
            hmax m hmS (beq_iff_eq.mpr hmid)
          have h2 : res.created_at ≤ m.created_at := hmmax res hresPk
          have heq : res = m :=
            eq_of_created_at_eq db.trade_links hts hresdb hmdb
              (Nat.le_antisymm h2 h1)
          rw [latestActivePrice, hM, heq]
          rfl

/-- Claim C5: `update_price` returns 0 when the collection feature is
administratively disabled; otherwise it returns the sum, over every card in
the collection, of that card's most recently created active non-gift trade
link price (cards with no such link contributing zero), and in either case it
persists the returned value onto the collection's `star_price`. -/
theorem Collection.update_price_spec (db : DB) (collId : Nat)
    (hcard : (db.cards.map (fun c => c.id)).Nodup)
    (hts : (db.trade_links.map (fun l => l.created_at)).Nodup) :
    (Collection.update_price false db collId).2 = 0 ∧
    (Collection.update_price true db collId).2 =
      ((Collection.get_cards db collId).map
        (fun c => latestActivePrice db c.id)).sum ∧
    ∀ e : Bool, (Collection.update_price e db collId).1 =
      setCollectionPrice db collId (Collection.update_price e db collId).2 := by
  refine ⟨rfl, ?_, ?_⟩
  · by_cases hemp : (Collection.get_cards db collId).isEmpty
    · have hnil : Collection.get_cards db collId = [] :=
        List.isEmpty_iff.mp hemp
      simp only [Collection.update_price, Bool.not_true, Bool.false_eq_true,
        if_false, hemp, if_true, hnil, List.isEmpty_nil, List.map_nil,
        List.sum_nil]
    · have hemp2 : (Collection.get_cards db collId).isEmpty = false := by
        simpa using hemp
      simp only [Collection.update_price, Bool.not_true, Bool.false_eq_true,
        if_false, hemp2]
      exact collect_sum_eq_latest db collId hcard hts
  · intro e
    cases e with
    | false => rfl
    | true =>
        simp only [Collection.update_price, Bool.not_true, Bool.false_eq_true,
          if_false]
        by_cases hemp : (Collection.get_cards db collId).isEmpty
        · simp only [hemp, if_true]
        · have hemp2 : (Collection.get_cards db collId).isEmpty = false := by
            simpa using hemp
          simp only [hemp2, Bool.false_eq_true, if_false]

/-- The collection of the C5 scenario. -/
def pricingCollection : CollectionRow :=
  { id := 1, name := "K", description := "", author_id := 3, star_price := 0,
    is_published := false, link_id := some ("deadbeefdeadbeef"),
    created_at := 0 }

/-- The single card of the C5 scenario, member of collection 1. -/
def pricingCard : CardRow :=
  { id := 1, card_number := 1, name := "c1", owner_id := 3,
    registration_date := "01.01.2024", expires := "Never",
    engraving_color := "white", has_background := false,
    collection_id := some 1, created_at := 0, access_key := none,
    star_price := 1 }

/-- An active non-gift listing of card 1 at 50 stars, created later. -/
def activeLink : TradeLinkRow :=
  { id := 1, link_id := "l1", card_id := 1, seller_id := 3, price := 50,
    is_gift := false, created_at := 2, is_active := true }

/-- A deactivated listing of card 1 at 10 stars, created earlier. -/
def inactiveLink : TradeLinkRow :=
  { id := 2, link_id := "l2", card_id := 1, seller_id := 3, price := 10,
    is_gift := false, created_at := 1, is_active := false }

/-- Store of the C5 scenario: collection `K` with card `C1`, one active link
priced 50 and one inactive link priced 10. -/
def pricingDB : DB :=
  { emptyDB with collections := [pricingCollection], cards := [pricingCard],
                 trade_links := [activeLink, inactiveLink], next_card_id := 2 }

/-- Witness for C5: the scenario store satisfies the hypotheses, the theorem
applies, and the computed price is 50 (the active link's price, not the
inactive one's). -/
theorem Collection.update_price_spec_witness :
    ((pricingDB.cards.map (fun c => c.id)).Nodup ∧
      (pricingDB.trade_links.map (fun l => l.created_at)).Nodup) ∧
    ((Collection.update_price false pricingDB 1).2 = 0 ∧
      (Collection.update_price true pricingDB 1).2 =
        ((Collection.get_cards pricingDB 1).map
          (fun c => latestActivePrice pricingDB c.id)).sum ∧
      ∀ e : Bool, (Collection.update_price e pricingDB 1).1 =
        setCollectionPrice pricingDB 1
          (Collection.update_price e pricingDB 1).2) ∧
    (Collection.update_price true pricingDB 1).2 = 50 :=
  ⟨⟨by decide, by decide⟩,
   Collection.update_price_spec pricingDB 1 (by decide) (by decide),
   by decide⟩
